import Mathlib

/-!
Shallow embedding of the batch data-generation pipeline of the ETL-Project
repository (`Data Generation/complete_generator.py`, `quick_gen.py`,
`config.py`), together with proofs about the batch chunker, identifier
formats, reference-id ranges, determinism, and the two execution passes of
`complete_generator.py`.

Conventions of the embedding:
* Python nonnegative integers are `Nat`.
* A Python zero-padded decimal format such as `f-string {x:08d}` is
  `pyFormat 8 x` (minimum width, never truncating).
* The shared pseudo-random stream seeded by `random.seed(42)` /
  `Faker.seed(42)` is an abstract stream `sigma : Nat -> Nat` consumed
  positionally; each primitive random / faker call consumes one position.
  `random.randint(lo, hi)` applied to draw `x` is given the concrete
  semantics `lo + x % (hi + 1 - lo)`, which is deterministic in the draw,
  stays inside `[lo, hi]`, and attains every value of `[lo, hi]`.
  Other provider calls (faker names, `random.uniform`, `random.choice`)
  are kept symbolic as an `RVal` recording the primitive, its parameters
  (including any wall-clock anchoring such as `end_date = today`), and the
  draw it consumed.
* Wall-clock inputs are explicit parameters: `today` (current calendar
  date, anchoring `fake.date_between(... , end_date = today)`) and `now`
  (the `datetime.now()` timestamp stored in `created_at`).
* Filesystem and console effects of a run are an explicit event trace.
-/

namespace ETL

/-! ### Python-style zero-padded decimal rendering -/

/-- Decimal digits, least significant first, by structural recursion on a
fuel bound so that the kernel can evaluate it on literals. -/
def digitsAux : Nat → Nat → List Nat
  | 0, _ => []
  | _ + 1, 0 => []
  | fuel + 1, n + 1 => (n + 1) % 10 :: digitsAux fuel ((n + 1) / 10)

theorem digitsAux_eq : ∀ fuel n : Nat, n ≤ fuel → digitsAux fuel n = Nat.digits 10 n := by
  intro fuel
  induction fuel with
  | zero =>
      intro n hn
      have : n = 0 := by omega
      simp [this, digitsAux]
  | succ f ih =>
      intro n hn
      match n with
      | 0 => simp [digitsAux]
      | m + 1 =>
          rw [digitsAux, Nat.digits_def' (by norm_num : (1:ℕ) < 10) (Nat.succ_pos m)]
          congr 1
          apply ih
          have := Nat.div_lt_self (Nat.succ_pos m) (by norm_num : (1:ℕ) < 10)
          omega

/-- Decimal digits of `n`, most significant first, as Python renders a
nonnegative integer (`0` renders as the single digit `0`). -/
def pyDigits (n : Nat) : List Nat :=
  if n = 0 then [0] else (digitsAux n n).reverse

theorem pyDigits_eq (n : Nat) :
    pyDigits n = if n = 0 then [0] else (Nat.digits 10 n).reverse := by
  unfold pyDigits
  by_cases h : n = 0
  · simp [h]
  · simp [h, digitsAux_eq n n (Nat.le_refl n)]

/-- Left zero-padding of the decimal digits of `n` to width `w`, as a Python
format specifier such as `%08d` produces for nonnegative `n`; numbers with
more than `w` digits keep all their digits. -/
def pad0 (w n : Nat) : List Nat :=
  List.replicate (w - (pyDigits n).length) 0 ++ pyDigits n

/-- The string produced by a Python zero-padded decimal format of width `w`. -/
def pyFormat (w n : Nat) : String :=
  String.mk ((pad0 w n).map Nat.digitChar)

/-- Horner evaluation of a digit list, most significant digit first. -/
def unpadVal (l : List Nat) : Nat :=
  l.foldl (fun a d => 10 * a + d) 0

theorem foldl_digit_step (l : List Nat) (a : Nat) :
    l.reverse.foldl (fun a d => 10 * a + d) a = a * 10 ^ l.length + Nat.ofDigits 10 l := by
  induction l generalizing a with
  | nil => simp [Nat.ofDigits_nil]
  | cons d t ih =>
      rw [List.reverse_cons, List.foldl_append, ih]
      simp only [List.foldl_cons, List.foldl_nil, Nat.ofDigits_cons, List.length_cons]
      ring

theorem unpadVal_pad0 (w n : Nat) : unpadVal (pad0 w n) = n := by
  unfold unpadVal pad0
  rw [List.foldl_append]
  have hrep : (List.replicate (w - (pyDigits n).length) 0).foldl
      (fun a d => 10 * a + d) 0 = 0 := by
    induction (w - (pyDigits n).length) with
    | zero => rfl
    | succ k ih => simpa [List.replicate_succ] using ih
  rw [hrep]
  rw [pyDigits_eq]
  by_cases h : n = 0
  · simp [h]
  · simp only [h, if_false]
    rw [foldl_digit_step]
    simp [Nat.ofDigits_digits]

theorem pad0_inj {w m n : Nat} (h : pad0 w m = pad0 w n) : m = n := by
  have := congrArg unpadVal h
  rwa [unpadVal_pad0, unpadVal_pad0] at this

theorem digitChar_decode (d : Nat) (hd : d < 10) : (Nat.digitChar d).toNat - 48 = d := by
  interval_cases d <;> decide

theorem pad0_digits_lt (w n : Nat) : ∀ d ∈ pad0 w n, d < 10 := by
  intro d hd
  rcases List.mem_append.mp hd with h | h
  · have := List.eq_of_mem_replicate h
    omega
  · rw [pyDigits_eq] at h
    by_cases h0 : n = 0
    · simp [h0] at h; omega
    · simp only [h0, if_false, List.mem_reverse] at h
      exact Nat.digits_lt_base (by norm_num) h

theorem map_digitChar_inj {l₁ l₂ : List Nat} (h₁ : ∀ d ∈ l₁, d < 10)
    (h₂ : ∀ d ∈ l₂, d < 10) (h : l₁.map Nat.digitChar = l₂.map Nat.digitChar) :
    l₁ = l₂ := by
  have key : ∀ l : List Nat, (∀ d ∈ l, d < 10) →
      (l.map Nat.digitChar).map (fun c => c.toNat - 48) = l := by
    intro l hl
    induction l with
    | nil => rfl
    | cons d t ih =>
        simp only [List.map_cons, List.cons.injEq]
        exact ⟨digitChar_decode d (hl d (List.mem_cons_self d t)),
          ih fun x hx => hl x (List.mem_cons_of_mem d hx)⟩
  have := congrArg (List.map (fun c : Char => c.toNat - 48)) h
  rwa [key l₁ h₁, key l₂ h₂] at this

theorem pyFormat_inj {w m n : Nat} (h : pyFormat w m = pyFormat w n) : m = n := by
  have hdata := congrArg String.data h
  exact pad0_inj (map_digitChar_inj (pad0_digits_lt w m) (pad0_digits_lt w n) hdata)

/-- Appending a distinct numeric suffix to a fixed identifier stem is injective. -/
theorem stem_format_inj (pre : String) (w : Nat) {m n : Nat}
    (h : pre ++ pyFormat w m = pre ++ pyFormat w n) : m = n := by
  have hdata : pre.data ++ (pyFormat w m).data = pre.data ++ (pyFormat w n).data :=
    congrArg String.data h
  have : (pyFormat w m).data = (pyFormat w n).data := List.append_cancel_left hdata
  exact pad0_inj (map_digitChar_inj (pad0_digits_lt w m) (pad0_digits_lt w n) this)

theorem pyFormat_length (w n : Nat) :
    (pyFormat w n).length = max w (pyDigits n).length := by
  show ((pad0 w n).map Nat.digitChar).length = _
  rw [List.length_map]
  unfold pad0
  rw [List.length_append, List.length_replicate]
  omega

theorem pyDigits_length_le {k n : Nat} (hk : 0 < k) (h : n < 10 ^ k) :
    (pyDigits n).length ≤ k := by
  rw [pyDigits_eq]
  by_cases h0 : n = 0
  · simpa [h0] using hk
  · simp only [h0, if_false, List.length_reverse]
    rw [Nat.digits_len 10 n (by norm_num) h0]
    have := Nat.log_lt_of_lt_pow h0 h
    omega

theorem pyDigits_length_pos (n : Nat) : 0 < (pyDigits n).length := by
  rw [pyDigits_eq]
  by_cases h0 : n = 0
  · simp [h0]
  · simp only [h0, if_false, List.length_reverse]
    exact List.length_pos.mpr ((Nat.digits_ne_nil_iff_ne_zero (b := 10)).mpr h0)

/-! ### The batch chunker

Source (`complete_generator.py`, `generate_all_customers` and the identically
shaped loops of the other three generators):

    num_batches = (NUM + BATCH_SIZE - 1) // BATCH_SIZE
    for batch_num in range(num_batches):
        start_id = batch_num * BATCH_SIZE
        current_batch_size = min(BATCH_SIZE, NUM - start_id)
-/

/-- `num_batches = (N + B - 1) // B`. -/
def numBatches (N B : Nat) : Nat := (N + B - 1) / B

/-- The ordered sequence of `(start_id, current_batch_size)` pairs produced by
the batch loop. -/
def batchRanges (N B : Nat) : List (Nat × Nat) :=
  (List.range (numBatches N B)).map fun batch_num =>
    (batch_num * B, min B (N - batch_num * B))

theorem numBatches_mul_ge {N B : Nat} (hN : 0 < N) (hB : 0 < B) :
    N ≤ numBatches N B * B := by
  have h := Nat.div_add_mod (N + B - 1) B
  have h2 : (N + B - 1) % B < B := Nat.mod_lt _ hB
  unfold numBatches
  rw [Nat.mul_comm]
  omega

theorem numBatches_pos {N B : Nat} (hN : 0 < N) (hB : 0 < B) :
    0 < numBatches N B := by
  have := numBatches_mul_ge hN hB
  by_contra h
  push_neg at h
  interval_cases (numBatches N B)
  omega

theorem numBatches_pred_mul_lt {N B : Nat} (hN : 0 < N) (hB : 0 < B) :
    (numBatches N B - 1) * B < N := by
  have h := Nat.div_add_mod (N + B - 1) B
  have h2 : (N + B - 1) % B < B := Nat.mod_lt _ hB
  have hpos := numBatches_pos hN hB
  have hsplit : (numBatches N B - 1) * B + B = numBatches N B * B := by
    have : numBatches N B - 1 + 1 = numBatches N B := by omega
    calc (numBatches N B - 1) * B + B = (numBatches N B - 1 + 1) * B := by ring
    _ = numBatches N B * B := by rw [this]
  have hmul : B * numBatches N B = numBatches N B * B := Nat.mul_comm _ _
  unfold numBatches at *
  omega

theorem chunk_cover_aux (N B : Nat) : ∀ n : Nat,
    ((List.range n).map fun k => List.range' (k * B) (min B (N - k * B))).flatten
      = List.range' 0 (min (n * B) N) := by
  intro n
  induction n with
  | zero => simp
  | succ m ih =>
      rw [List.range_succ, List.map_append, List.flatten_append, ih]
      simp only [List.map_cons, List.map_nil, List.flatten_cons, List.flatten_nil,
        List.append_nil]
      by_cases hcase : N ≤ m * B
      · have h1 : min (m * B) N = N := by omega
        have h2 : N - m * B = 0 := by omega
        have h3 : min ((m + 1) * B) N = N := by
          have : m * B ≤ (m + 1) * B := by
            apply Nat.mul_le_mul_right
            omega
          omega
        rw [h1, h2, h3]
        simp
      · push_neg at hcase
        have h1 : min (m * B) N = m * B := by omega
        rw [h1]
        have happ := List.range'_append 0 (m * B) (min B (N - m * B)) 1
        simp only [Nat.one_mul, Nat.zero_add] at happ
        rw [happ]
        congr 1
        have hsucc : (m + 1) * B = m * B + B := by ring
        rcases Nat.le_total B (N - m * B) with hle | hle
        · have : min B (N - m * B) = B := by omega
          rw [this, hsucc]
          omega
        · have : min B (N - m * B) = N - m * B := by omega
          rw [this, hsucc]
          omega

/-- Concatenating the id ranges of all batches, in batch order, yields exactly
the ordered interval `[0, N)`. -/
theorem chunk_cover {N B : Nat} (hN : 0 < N) (hB : 0 < B) :
    ((batchRanges N B).map fun r => List.range' r.1 r.2).flatten = List.range N := by
  unfold batchRanges
  rw [List.map_map]
  have h := chunk_cover_aux N B (numBatches N B)
  have hmin : min (numBatches N B * B) N = N := by
    have := numBatches_mul_ge hN hB
    omega
  rw [hmin, ← List.range_eq_range'] at h
  exact h

theorem chunk_len_of_not_last {N B : Nat} (hN : 0 < N) (hB : 0 < B) {k : Nat}
    (hk : k + 1 < numBatches N B) : min B (N - k * B) = B := by
  have h1 : (k + 1) * B ≤ (numBatches N B - 1) * B :=
    Nat.mul_le_mul_right B (by omega)
  have h2 := numBatches_pred_mul_lt hN hB
  have h3 : (k + 1) * B = k * B + B := by ring
  omega

theorem chunk_len_last {N B : Nat} (hN : 0 < N) (hB : 0 < B) :
    min B (N - (numBatches N B - 1) * B) = N - (numBatches N B - 1) * B := by
  have h1 := numBatches_mul_ge hN hB
  have hpos := numBatches_pos hN hB
  have hsplit : (numBatches N B - 1) * B + B = numBatches N B * B := by
    have h : numBatches N B - 1 + 1 = numBatches N B := by omega
    calc (numBatches N B - 1) * B + B = (numBatches N B - 1 + 1) * B := by ring
    _ = numBatches N B * B := by rw [h]
  omega

theorem numBatches_dvd {N B : Nat} (hB : 0 < B) (h : N % B = 0) :
    numBatches N B = N / B := by
  obtain ⟨t, ht⟩ := Nat.dvd_of_mod_eq_zero h
  subst ht
  unfold numBatches
  have h1 : B * t + B - 1 = B * t + (B - 1) := by omega
  rw [h1, Nat.mul_add_div hB, Nat.div_eq_of_lt (by omega), Nat.mul_div_cancel_left t hB]
  omega

theorem numBatches_of_lt {N B : Nat} (hN : 0 < N) (h : N < B) :
    numBatches N B = 1 := by
  unfold numBatches
  have hlo : 1 * B ≤ N + B - 1 := by omega
  have hhi : N + B - 1 < (1 + 1) * B := by omega
  exact Nat.div_eq_of_lt_le hlo hhi

theorem batchRanges_single {N B : Nat} (hN : 0 < N) (h : N < B) :
    batchRanges N B = [(0, N)] := by
  unfold batchRanges
  rw [numBatches_of_lt hN h]
  have hr : List.range 1 = [0] := rfl
  rw [hr]
  simp only [List.map_cons, List.map_nil, Nat.zero_mul, Nat.sub_zero]
  have : min B N = N := by omega
  rw [this]

theorem batchRanges_length (N B : Nat) :
    (batchRanges N B).length = numBatches N B := by
  simp [batchRanges]

theorem batchRanges_get {N B k : Nat} (hk : k < numBatches N B) :
    (batchRanges N B)[k]? = some (k * B, min B (N - k * B)) := by
  unfold batchRanges
  rw [List.getElem?_map, List.getElem?_range hk]
  rfl

/-! ### Configuration (`config.py`) -/

def NUM_CUSTOMERS : Nat := 2000000
def NUM_PRODUCTS : Nat := 200000
def NUM_SALES_REPS : Nat := 20000
def NUM_TRANSACTIONS : Nat := 85000000
def CUSTOMER_BATCH_SIZE : Nat := 200000
def PRODUCT_BATCH_SIZE : Nat := 50000
def TRANSACTION_BATCH_SIZE : Nat := 1000000
def OUTPUT_FORMAT : String := "parquet"

def REGIONS : List String := ["North", "South", "East", "West", "Central"]
def COUNTRIES : List String := ["USA", "Canada", "UK", "Germany", "France", "Australia"]
def PRODUCT_CATEGORIES : List String :=
  ["Electronics", "Clothing", "Home & Garden", "Sports", "Books"]
def CUSTOMER_SEGMENTS : List String := ["Bronze", "Silver", "Gold", "Platinum"]

/-- The five payment methods of the first transaction pass. -/
def PAYMENT_METHODS : List String :=
  ["Credit Card", "Debit Card", "Check", "Bank Transfer", "Online Payment"]

/-- The four payment methods of the legacy transaction pass. -/
def LEGACY_PAYMENT_METHODS : List String :=
  ["Credit Card", "Debit Card", "Check", "Bank Transfer"]

/-! ### Random primitives -/

/-- Semantics of `random.randint(lo, hi)` applied to the abstract stream draw
`x`: deterministic in the draw, always inside `[lo, hi]` (for `lo ≤ hi`), and
attaining every value of `[lo, hi]` as `x` varies. -/
def randintV (lo hi x : Nat) : Nat := lo + x % (hi + 1 - lo)

theorem randintV_lower (lo hi x : Nat) : lo ≤ randintV lo hi x :=
  Nat.le_add_right lo _

theorem randintV_upper (lo hi : Nat) (h : lo ≤ hi) (x : Nat) :
    randintV lo hi x ≤ hi := by
  unfold randintV
  have : x % (hi + 1 - lo) < hi + 1 - lo := Nat.mod_lt _ (by omega)
  omega

theorem randintV_lt {hi : Nat} (h : 0 < hi) (x : Nat) : randintV 0 (hi - 1) x < hi := by
  unfold randintV
  have : x % (hi - 1 + 1 - 0) < hi - 1 + 1 - 0 := Nat.mod_lt _ (by omega)
  omega

theorem randintV_surj {lo hi v : Nat} (h1 : lo ≤ v) (h2 : v ≤ hi) :
    randintV lo hi (v - lo) = v := by
  unfold randintV
  rw [Nat.mod_eq_of_lt (by omega)]
  omega

/-- One value produced by a call to the external fake-data provider or to a
`random` primitive other than `randint`: the constructor records which
primitive was called, the parameters it was given (including any wall-clock
anchoring, such as the `today` end point of `fake.date_between`), and the
abstract pseudo-random draw it consumed.  `uniform` records the two float
bounds of `round(random.uniform(lo, hi), prec)` in exact hundredths
(`loCenti = 100 * lo`), together with the rounding precision. -/
inductive RVal : Type
  | fakerName (x : Nat)
  | fakerEmail (x : Nat)
  | fakerPhone (x : Nat)
  | fakerCity (x : Nat)
  | fakerStateAbbr (x : Nat)
  | fakerZip (x : Nat)
  | fakerWord (x : Nat)
  | fakerTwoWords (x y : Nat)
  | dateBetween (yearsBack today x : Nat)
  | choice (items : List String) (x : Nat)
  | uniform (loCenti hiCenti prec x : Nat)
  deriving DecidableEq

/-! ### Entity synthesizers, first pass of `complete_generator.py`

Each synthesizer consumes the shared stream `σ` starting at position `p`,
one position per provider call, in the source's call order.  `today` is the
current calendar date (anchor of `fake.date_between(end_date = today)`) and
`now` the `datetime.now()` wall-clock timestamp. -/

structure Customer where
  customer_id : String
  customer_name : RVal
  email : RVal
  phone : RVal
  segment : RVal
  region : RVal
  country : RVal
  city : RVal
  state : RVal
  zip_code : RVal
  acquisition_date : RVal
  lifetime_value : RVal
  created_at : Nat
  deriving DecidableEq

/-- One customer of the first pass (`complete_generator.py` lines 60-82):
`customer_id = CUST{id:08d}`, `acquisition_date = date_between(-5y, today)`,
`lifetime_value = round(uniform(100, 500000), 2)`. -/
def mkCustomer (σ : Nat → Nat) (p today now customer_id : Nat) : Customer :=
  { customer_id := "CUST" ++ pyFormat 8 customer_id
    customer_name := .fakerName (σ (p + 1))
    email := .fakerEmail (σ (p + 2))
    phone := .fakerPhone (σ (p + 3))
    segment := .choice CUSTOMER_SEGMENTS (σ (p + 4))
    region := .choice REGIONS (σ (p + 5))
    country := .choice COUNTRIES (σ (p + 6))
    city := .fakerCity (σ (p + 7))
    state := .fakerStateAbbr (σ (p + 8))
    zip_code := .fakerZip (σ (p + 9))
    acquisition_date := .dateBetween 5 today (σ p)
    lifetime_value := .uniform 10000 50000000 2 (σ (p + 10))
    created_at := now }

/-- `generate_customer_batch(start_id, batch_size)` of the first pass, with
the stream position, current date, and current time made explicit.  Each
customer consumes 11 draws. -/
def generate_customer_batch (σ : Nat → Nat) (p today now start_id batch_size : Nat) :
    List Customer :=
  (List.range batch_size).map fun i =>
    mkCustomer σ (p + 11 * i) today now (start_id + i)

structure Product where
  product_id : String
  product_name : RVal
  category : RVal
  subcategory : RVal
  unit_price : RVal
  cost_price : RVal
  supplier_id : String
  stock_quantity : Nat
  reorder_point : Nat
  created_at : Nat
  deriving DecidableEq

/-- One product of the first pass (`complete_generator.py` lines 137-151):
`product_id = PROD{id:08d}`, `supplier_id = SUPP{randint(1,1000):06d}`,
`stock_quantity = randint(0, 10000)`, `reorder_point = randint(50, 500)`. -/
def mkProduct (σ : Nat → Nat) (p now product_id : Nat) : Product :=
  { product_id := "PROD" ++ pyFormat 8 product_id
    product_name := .fakerTwoWords (σ p) (σ (p + 1))
    category := .choice PRODUCT_CATEGORIES (σ (p + 2))
    subcategory := .fakerWord (σ (p + 3))
    unit_price := .uniform 1000 100000 2 (σ (p + 4))
    cost_price := .uniform 500 50000 2 (σ (p + 5))
    supplier_id := "SUPP" ++ pyFormat 6 (randintV 1 1000 (σ (p + 6)))
    stock_quantity := randintV 0 10000 (σ (p + 7))
    reorder_point := randintV 50 500 (σ (p + 8))
    created_at := now }

/-- The product batch loop body of the first pass; 9 draws per product. -/
def generate_product_batch (σ : Nat → Nat) (p now start_id batch_size : Nat) :
    List Product :=
  (List.range batch_size).map fun i =>
    mkProduct σ (p + 9 * i) now (start_id + i)

structure SalesRep where
  sales_rep_id : String
  name : RVal
  email : RVal
  phone : RVal
  region : RVal
  territory : RVal
  hire_date : RVal
  commission_rate : RVal
  created_at : Nat
  deriving DecidableEq

/-- One sales rep of the first pass (`complete_generator.py` lines 190-202):
`sales_rep_id = SREP{id:08d}`, `hire_date = date_between(-15y, today)`,
`commission_rate = round(uniform(0.01, 0.25), 4)`. -/
def mkSalesRep (σ : Nat → Nat) (p today now rep_id : Nat) : SalesRep :=
  { sales_rep_id := "SREP" ++ pyFormat 8 rep_id
    name := .fakerName (σ p)
    email := .fakerEmail (σ (p + 1))
    phone := .fakerPhone (σ (p + 2))
    region := .choice REGIONS (σ (p + 3))
    territory := .fakerCity (σ (p + 4))
    hire_date := .dateBetween 15 today (σ (p + 5))
    commission_rate := .uniform 1 25 4 (σ (p + 6))
    created_at := now }

/-- The sales-rep batch loop body of the first pass; 7 draws per rep. -/
def generate_sales_rep_batch (σ : Nat → Nat) (p today now start_id batch_size : Nat) :
    List SalesRep :=
  (List.range batch_size).map fun i =>
    mkSalesRep σ (p + 7 * i) today now (start_id + i)

structure Transaction where
  transaction_id : String
  customer_id : String
  product_id : String
  sales_rep_id : String
  transaction_date : Nat
  quantity : Nat
  unit_price : RVal
  discount_percent : RVal
  tax_amount : RVal
  total_amount : RVal
  payment_method : RVal
  region : RVal
  created_at : Nat
  deriving DecidableEq

/-- One transaction of the first pass (`complete_generator.py` lines 245-263).
`startEpoch` is the parsed `START_DATE` as a day number and `numDays` the
parsed `(END_DATE - START_DATE).days`; `transaction_date` is
`start + timedelta(days = randint(0, num_days))`.  The three reference
fields are `CUST{randint(0, numCustomers-1):08d}`,
`PROD{randint(0, numProducts-1):08d}`, `SREP{randint(0, numSalesReps-1):08d}`;
the five monetary and quantity fields are five separate draws. -/
def mkTransaction (σ : Nat → Nat) (p startEpoch numDays numCustomers numProducts
    numSalesReps now transaction_id : Nat) : Transaction :=
  { transaction_id := "TXN" ++ pyFormat 12 transaction_id
    customer_id := "CUST" ++ pyFormat 8 (randintV 0 (numCustomers - 1) (σ (p + 1)))
    product_id := "PROD" ++ pyFormat 8 (randintV 0 (numProducts - 1) (σ (p + 2)))
    sales_rep_id := "SREP" ++ pyFormat 8 (randintV 0 (numSalesReps - 1) (σ (p + 3)))
    transaction_date := startEpoch + randintV 0 numDays (σ p)
    quantity := randintV 1 500 (σ (p + 4))
    unit_price := .uniform 1000 100000 2 (σ (p + 5))
    discount_percent := .uniform 0 5000 2 (σ (p + 6))
    tax_amount := .uniform 1000 100000 2 (σ (p + 7))
    total_amount := .uniform 5000 5000000 2 (σ (p + 8))
    payment_method := .choice PAYMENT_METHODS (σ (p + 9))
    region := .choice REGIONS (σ (p + 10))
    created_at := now }

/-- The transaction batch loop body of the first pass; 11 draws each. -/
def generate_transaction_batch (σ : Nat → Nat) (p startEpoch numDays numCustomers
    numProducts numSalesReps now start_id batch_size : Nat) : List Transaction :=
  (List.range batch_size).map fun i =>
    mkTransaction σ (p + 11 * i) startEpoch numDays numCustomers numProducts
      numSalesReps now (start_id + i)

/-! ### Entity synthesizers, legacy second pass of `complete_generator.py`
(the redefinitions at lines 330-537 that the module then executes again) -/

namespace Legacy

/-- One customer of the legacy pass (`complete_generator.py` lines 331-353):
`customer_id = CUST{id:06d}`, `acquisition_date = date_between(-3y, today)`,
`lifetime_value = round(uniform(100, 50000), 2)`. -/
def mkCustomer (σ : Nat → Nat) (p today now customer_id : Nat) : Customer :=
  { customer_id := "CUST" ++ pyFormat 6 customer_id
    customer_name := .fakerName (σ (p + 1))
    email := .fakerEmail (σ (p + 2))
    phone := .fakerPhone (σ (p + 3))
    segment := .choice CUSTOMER_SEGMENTS (σ (p + 4))
    region := .choice REGIONS (σ (p + 5))
    country := .choice COUNTRIES (σ (p + 6))
    city := .fakerCity (σ (p + 7))
    state := .fakerStateAbbr (σ (p + 8))
    zip_code := .fakerZip (σ (p + 9))
    acquisition_date := .dateBetween 3 today (σ p)
    lifetime_value := .uniform 10000 5000000 2 (σ (p + 10))
    created_at := now }

/-- Legacy `generate_customer_batch`; 11 draws per customer. -/
def generate_customer_batch (σ : Nat → Nat) (p today now start_id batch_size : Nat) :
    List Customer :=
  (List.range batch_size).map fun i =>
    mkCustomer σ (p + 11 * i) today now (start_id + i)

/-- One product of the legacy pass (`complete_generator.py` lines 408-423):
`product_id = PROD{id:06d}`, `supplier_id = SUPP{randint(1,100):04d}`,
`stock_quantity = randint(0, 1000)`, `reorder_point = randint(50, 200)`. -/
def mkProduct (σ : Nat → Nat) (p now product_id : Nat) : Product :=
  { product_id := "PROD" ++ pyFormat 6 product_id
    product_name := .fakerTwoWords (σ p) (σ (p + 1))
    category := .choice PRODUCT_CATEGORIES (σ (p + 2))
    subcategory := .fakerWord (σ (p + 3))
    unit_price := .uniform 1000 100000 2 (σ (p + 4))
    cost_price := .uniform 500 50000 2 (σ (p + 5))
    supplier_id := "SUPP" ++ pyFormat 4 (randintV 1 100 (σ (p + 6)))
    stock_quantity := randintV 0 1000 (σ (p + 7))
    reorder_point := randintV 50 200 (σ (p + 8))
    created_at := now }

/-- One sales rep of the legacy pass (`complete_generator.py` lines 451-464).
The loop index `i` runs over `range(NUM_SALES_REPS)` and the identifier is the
1-based `SREP{i+1:04d}`; `hire_date = date_between(-10y, today)`,
`commission_rate = round(uniform(0.01, 0.15), 4)`. -/
def mkSalesRep (σ : Nat → Nat) (p today now i : Nat) : SalesRep :=
  { sales_rep_id := "SREP" ++ pyFormat 4 (i + 1)
    name := .fakerName (σ p)
    email := .fakerEmail (σ (p + 1))
    phone := .fakerPhone (σ (p + 2))
    region := .choice REGIONS (σ (p + 3))
    territory := .fakerCity (σ (p + 4))
    hire_date := .dateBetween 10 today (σ (p + 5))
    commission_rate := .uniform 1 15 4 (σ (p + 6))
    created_at := now }

/-- Legacy `generate_sales_reps` record list: all `numSalesReps` reps in one
unbatched list; 7 draws per rep. -/
def generate_sales_reps_records (σ : Nat → Nat) (p today now numSalesReps : Nat) :
    List SalesRep :=
  (List.range numSalesReps).map fun i => mkSalesRep σ (p + 7 * i) today now i

/-- One transaction of the legacy pass (`complete_generator.py` lines
501-521): `transaction_id = TXN{id:09d}`, references
`CUST{randint(0, numCustomers-1):06d}`, `PROD{randint(0, numProducts-1):06d}`
and — unlike the first pass — the 1-based `SREP{randint(1, numSalesReps):04d}`;
`quantity = randint(1, 100)`, `tax = round(uniform(10, 500), 2)`,
`total = round(uniform(50, 10000), 2)`, and only four payment methods. -/
def mkTransaction (σ : Nat → Nat) (p startEpoch numDays numCustomers numProducts
    numSalesReps now transaction_id : Nat) : Transaction :=
  { transaction_id := "TXN" ++ pyFormat 9 transaction_id
    customer_id := "CUST" ++ pyFormat 6 (randintV 0 (numCustomers - 1) (σ (p + 1)))
    product_id := "PROD" ++ pyFormat 6 (randintV 0 (numProducts - 1) (σ (p + 2)))
    sales_rep_id := "SREP" ++ pyFormat 4 (randintV 1 numSalesReps (σ (p + 3)))
    transaction_date := startEpoch + randintV 0 numDays (σ p)
    quantity := randintV 1 100 (σ (p + 4))
    unit_price := .uniform 1000 100000 2 (σ (p + 5))
    discount_percent := .uniform 0 5000 2 (σ (p + 6))
    tax_amount := .uniform 1000 50000 2 (σ (p + 7))
    total_amount := .uniform 5000 1000000 2 (σ (p + 8))
    payment_method := .choice LEGACY_PAYMENT_METHODS (σ (p + 9))
    region := .choice REGIONS (σ (p + 10))
    created_at := now }

/-- The 1-based sales-rep identifiers the legacy `generate_sales_reps`
materializes: `SREP0001 .. SREP{numSalesReps:04d}` (wider once the value
exceeds four digits, exactly as Python renders them). -/
def salesRepIds (numSalesReps : Nat) : List String :=
  (List.range numSalesReps).map fun i => "SREP" ++ pyFormat 4 (i + 1)

end Legacy

/-! ### `quick_gen.py` customer generator (same batch loop as the legacy pass,
3-digit batch-index padding in the file name) -/

/-- The `(file name, record count)` sequence written by
`quick_gen.generate_all_customers` with count `N`, batch size `B` and output
format `fmt`: `generated-data/customers/customers_batch_{batch_num:03d}.<ext>`
holding `min(B, N - batch_num * B)` records. -/
def quickGenCustomerFiles (N B : Nat) (fmt : String) : List (String × Nat) :=
  (List.range (numBatches N B)).map fun batch_num =>
    ("generated-data/customers/customers_batch_" ++ pyFormat 3 batch_num ++
      (if fmt = "parquet" then ".parquet" else ".csv"),
     min B (N - batch_num * B))

/-! ### The pipeline driver as an event trace

A run is modelled by the sequence of filesystem and console effects it
performs, together with the process exit code.  `wfail` is the external
failure oracle: `wfail f = true` means the write of file `f` raises (disk
full, unwritable directory); directory creation is assumed to succeed.
`print(...)` goes to the standard output stream (`Ev.out`) and
`traceback.print_exc()` to the error stream (`Ev.err`), as in Python. -/

inductive Ev : Type
  | mkdir (path : String)
  | write (path : String) (records : Nat)
  | out (line : String)
  | err (line : String)
  deriving DecidableEq

/-- Outcome of a block of Python statements: normal completion or a raised
exception carrying a message. -/
inductive POut : Type
  | ok
  | exc (msg : String)
  deriving DecidableEq

/-- Sequential batch writing: the first file on which `wfail` is true raises,
producing no event for that file and abandoning the rest of the loop. -/
def writeSeq (wfail : String → Bool) : List (String × Nat) → List Ev × POut
  | [] => ([], .ok)
  | (f, n) :: rest =>
      if wfail f then ([], .exc "write failure")
      else
        let r := writeSeq wfail rest
        (Ev.write f n :: r.1, r.2)

def fileExt (fmt : String) : String := if fmt = "parquet" then ".parquet" else ".csv"

/-- The `(file name, record count)` sequence of one batched entity pipeline:
`<dir>/<stem>_batch_<b, zero-padded to w>.<ext>` holding
`min(B, N - b*B)` records, for `b` in `range(numBatches N B)`. -/
def entityFiles (dir stem : String) (w : Nat) (fmt : String) (N B : Nat) :
    List (String × Nat) :=
  (List.range (numBatches N B)).map fun b =>
    (dir ++ "/" ++ stem ++ "_batch_" ++ pyFormat w b ++ fileExt fmt,
     min B (N - b * B))

/-- One batched entity pipeline exactly as Python executes it:
`os.makedirs(output_dir, exist_ok=True)` first, then
`num_batches = (N + B - 1) // B` — which raises `ZeroDivisionError` when the
batch size is zero, after the directory already exists — then the write loop. -/
def entityPipeline (wfail : String → Bool) (dir stem : String) (w : Nat)
    (fmt : String) (N B : Nat) : List Ev × POut :=
  if B = 0 then ([Ev.mkdir dir], .exc "ZeroDivisionError")
  else
    let r := writeSeq wfail (entityFiles dir stem w fmt N B)
    (Ev.mkdir dir :: r.1, r.2)

/-- The legacy sales-rep pipeline: one unbatched file `sales_reps.<ext>`. -/
def legacySalesRepPipeline (wfail : String → Bool) (fmt : String) (N : Nat) :
    List Ev × POut :=
  if wfail ("generated-data/sales-reps/sales_reps" ++ fileExt fmt) then
    ([Ev.mkdir "generated-data/sales-reps"], .exc "write failure")
  else
    ([Ev.mkdir "generated-data/sales-reps",
      Ev.write ("generated-data/sales-reps/sales_reps" ++ fileExt fmt) N], .ok)

/-- Sequencing inside one `try:` block: the second stage runs only when the
first completed normally; a raised exception propagates. -/
def andThen (a : List Ev × POut) (b : Unit → List Ev × POut) : List Ev × POut :=
  match a with
  | (es, .ok) => ((es ++ (b ()).1 : List Ev), (b ()).2)
  | (es, .exc m) => (es, .exc m)

/-- The configuration object of `config.py`, kept abstract so that runs can be
examined at any volume. -/
structure Config where
  numCustomers : Nat
  numProducts : Nat
  numSalesReps : Nat
  numTransactions : Nat
  customerBatchSize : Nat
  productBatchSize : Nat
  transactionBatchSize : Nat
  fmt : String
  deriving DecidableEq

/-- The configuration values of `config.py`. -/
def theConfig : Config :=
  { numCustomers := NUM_CUSTOMERS
    numProducts := NUM_PRODUCTS
    numSalesReps := NUM_SALES_REPS
    numTransactions := NUM_TRANSACTIONS
    customerBatchSize := CUSTOMER_BATCH_SIZE
    productBatchSize := PRODUCT_BATCH_SIZE
    transactionBatchSize := TRANSACTION_BATCH_SIZE
    fmt := OUTPUT_FORMAT }

/-- First `try:` body of `complete_generator.py` (lines 291-300): customers,
products, sales reps (batched with `PRODUCT_BATCH_SIZE`), transactions, all
with 5-digit batch-index padding. -/
def firstPass (wfail : String → Bool) (c : Config) : List Ev × POut :=
  andThen (entityPipeline wfail "generated-data/customers" "customers" 5 c.fmt
      c.numCustomers c.customerBatchSize) fun _ =>
  andThen (entityPipeline wfail "generated-data/products" "products" 5 c.fmt
      c.numProducts c.productBatchSize) fun _ =>
  andThen (entityPipeline wfail "generated-data/sales-reps" "sales_reps" 5 c.fmt
      c.numSalesReps c.productBatchSize) fun _ =>
  entityPipeline wfail "generated-data/transactions" "transactions" 5 c.fmt
      c.numTransactions c.transactionBatchSize

/-- Second `try:` body of `complete_generator.py` (lines 544-547), running the
legacy redefinitions: 3-digit batch-index padding and one unbatched
sales-rep file. -/
def secondPass (wfail : String → Bool) (c : Config) : List Ev × POut :=
  andThen (entityPipeline wfail "generated-data/customers" "customers" 3 c.fmt
      c.numCustomers c.customerBatchSize) fun _ =>
  andThen (entityPipeline wfail "generated-data/products" "products" 3 c.fmt
      c.numProducts c.productBatchSize) fun _ =>
  andThen (legacySalesRepPipeline wfail c.fmt c.numSalesReps) fun _ =>
  entityPipeline wfail "generated-data/transactions" "transactions" 3 c.fmt
      c.numTransactions c.transactionBatchSize

/-- A `try: ... except Exception: print(error); traceback.print_exc();
sys.exit(1)` block: the diagnostic line goes to standard output (Python
`print`), the stack trace to the error stream, and the process exit code is
1 on an exception, 0 on completion. -/
def runTry (body : List Ev × POut) : List Ev × Nat :=
  match body with
  | (es, .ok) => (es, 0)
  | (es, .exc m) =>
      (es ++ [Ev.out ("ERROR: " ++ m), Ev.err "Traceback (most recent call last)"], 1)

/-- The whole module execution of `complete_generator.py`: the first pass in
its `try` block; `sys.exit(1)` in its `except` clause ends the process, so
the second (legacy) pass runs only when the first completed. -/
def completeGeneratorMain (wfail : String → Bool) (c : Config) : List Ev × Nat :=
  match runTry (firstPass wfail c) with
  | (es, 0) =>
      ((es ++ (runTry (secondPass wfail c)).1 : List Ev),
        (runTry (secondPass wfail c)).2)
  | (es, code) => (es, code)

/-- Every file both passes of a fully successful run write, in write order. -/
def allFiles (c : Config) : List (String × Nat) :=
  entityFiles "generated-data/customers" "customers" 5 c.fmt
      c.numCustomers c.customerBatchSize
  ++ entityFiles "generated-data/products" "products" 5 c.fmt
      c.numProducts c.productBatchSize
  ++ entityFiles "generated-data/sales-reps" "sales_reps" 5 c.fmt
      c.numSalesReps c.productBatchSize
  ++ entityFiles "generated-data/transactions" "transactions" 5 c.fmt
      c.numTransactions c.transactionBatchSize
  ++ entityFiles "generated-data/customers" "customers" 3 c.fmt
      c.numCustomers c.customerBatchSize
  ++ entityFiles "generated-data/products" "products" 3 c.fmt
      c.numProducts c.productBatchSize
  ++ [("generated-data/sales-reps/sales_reps" ++ fileExt c.fmt, c.numSalesReps)]
  ++ entityFiles "generated-data/transactions" "transactions" 3 c.fmt
      c.numTransactions c.transactionBatchSize

theorem writeSeq_ok_iff (wfail : String → Bool) (l : List (String × Nat)) :
    (writeSeq wfail l).2 = POut.ok ↔ ∀ p ∈ l, wfail p.1 = false := by
  induction l with
  | nil => simp [writeSeq]
  | cons hd tl ih =>
      obtain ⟨f, n⟩ := hd
      by_cases hf : wfail f
      · simp [writeSeq, hf]
      · simp only [writeSeq, hf, if_false, List.mem_cons]
        simp only [Bool.not_eq_true] at hf
        constructor
        · intro h p hp
          rcases hp with rfl | hp
          · exact hf
          · exact (ih.mp h) p hp
        · intro h
          exact ih.mpr fun p hp => h p (Or.inr hp)

theorem writeSeq_all_ok (wfail : String → Bool) (l : List (String × Nat))
    (h : ∀ p ∈ l, wfail p.1 = false) :
    writeSeq wfail l = (l.map fun p => Ev.write p.1 p.2, POut.ok) := by
  induction l with
  | nil => rfl
  | cons hd tl ih =>
      obtain ⟨f, n⟩ := hd
      have hf : wfail f = false := h (f, n) (List.mem_cons_self _ _)
      simp only [writeSeq, hf, Bool.false_eq_true, if_false, List.map_cons]
      rw [ih fun p hp => h p (List.mem_cons_of_mem _ hp)]

theorem andThen_ok_iff (a : List Ev × POut) (b : Unit → List Ev × POut) :
    (andThen a b).2 = POut.ok ↔ a.2 = POut.ok ∧ (b ()).2 = POut.ok := by
  obtain ⟨es, o⟩ := a
  cases o <;> simp [andThen]

theorem mem_andThen_left {a : List Ev × POut} {b : Unit → List Ev × POut} {e : Ev}
    (h : e ∈ a.1) : e ∈ (andThen a b).1 := by
  obtain ⟨es, o⟩ := a
  cases o
  · exact List.mem_append_left _ h
  · exact h

theorem mem_andThen_right {a : List Ev × POut} {b : Unit → List Ev × POut} {e : Ev}
    (ha : a.2 = POut.ok) (h : e ∈ (b ()).1) : e ∈ (andThen a b).1 := by
  obtain ⟨es, o⟩ := a
  cases o
  · exact List.mem_append_right _ h
  · exact absurd ha (by simp)

theorem runTry_zero_iff (body : List Ev × POut) :
    (runTry body).2 = 0 ↔ body.2 = POut.ok := by
  obtain ⟨es, o⟩ := body
  cases o <;> simp [runTry]

theorem mem_runTry {body : List Ev × POut} {e : Ev} (h : e ∈ body.1) :
    e ∈ (runTry body).1 := by
  obtain ⟨es, o⟩ := body
  cases o
  · exact h
  · exact List.mem_append_left _ h

theorem entityPipeline_ok_iff (wfail : String → Bool) (dir stem : String)
    (w : Nat) (fmt : String) (N B : Nat) (hB : B ≠ 0) :
    (entityPipeline wfail dir stem w fmt N B).2 = POut.ok ↔
      ∀ p ∈ entityFiles dir stem w fmt N B, wfail p.1 = false := by
  simp only [entityPipeline, hB, if_false]
  exact writeSeq_ok_iff wfail _

theorem mem_entityPipeline {wfail : String → Bool} {dir stem : String}
    {w : Nat} {fmt : String} {N B : Nat} (hB : B ≠ 0)
    (hok : ∀ p ∈ entityFiles dir stem w fmt N B, wfail p.1 = false)
    {f : String × Nat} (hf : f ∈ entityFiles dir stem w fmt N B) :
    Ev.write f.1 f.2 ∈ (entityPipeline wfail dir stem w fmt N B).1 := by
  simp only [entityPipeline, hB, if_false]
  rw [writeSeq_all_ok wfail _ hok]
  exact List.mem_cons_of_mem _ (List.mem_map.mpr ⟨f, hf, rfl⟩)

theorem legacySalesRepPipeline_ok_iff (wfail : String → Bool) (fmt : String) (N : Nat) :
    (legacySalesRepPipeline wfail fmt N).2 = POut.ok ↔
      wfail ("generated-data/sales-reps/sales_reps" ++ fileExt fmt) = false := by
  by_cases h : wfail ("generated-data/sales-reps/sales_reps" ++ fileExt fmt) <;>
    simp [legacySalesRepPipeline, h]

theorem firstPass_ok_iff (wfail : String → Bool) (c : Config)
    (h1 : c.customerBatchSize ≠ 0) (h2 : c.productBatchSize ≠ 0)
    (h3 : c.transactionBatchSize ≠ 0) :
    (firstPass wfail c).2 = POut.ok ↔
      ((∀ p ∈ entityFiles "generated-data/customers" "customers" 5 c.fmt
          c.numCustomers c.customerBatchSize, wfail p.1 = false)
        ∧ (∀ p ∈ entityFiles "generated-data/products" "products" 5 c.fmt
            c.numProducts c.productBatchSize, wfail p.1 = false)
        ∧ (∀ p ∈ entityFiles "generated-data/sales-reps" "sales_reps" 5 c.fmt
            c.numSalesReps c.productBatchSize, wfail p.1 = false)
        ∧ (∀ p ∈ entityFiles "generated-data/transactions" "transactions" 5 c.fmt
            c.numTransactions c.transactionBatchSize, wfail p.1 = false)) := by
  unfold firstPass
  simp only [andThen_ok_iff]
  rw [entityPipeline_ok_iff _ _ _ _ _ _ _ h1, entityPipeline_ok_iff _ _ _ _ _ _ _ h2,
    entityPipeline_ok_iff _ _ _ _ _ _ _ h2, entityPipeline_ok_iff _ _ _ _ _ _ _ h3]

theorem secondPass_ok_iff (wfail : String → Bool) (c : Config)
    (h1 : c.customerBatchSize ≠ 0) (h2 : c.productBatchSize ≠ 0)
    (h3 : c.transactionBatchSize ≠ 0) :
    (secondPass wfail c).2 = POut.ok ↔
      ((∀ p ∈ entityFiles "generated-data/customers" "customers" 3 c.fmt
          c.numCustomers c.customerBatchSize, wfail p.1 = false)
        ∧ (∀ p ∈ entityFiles "generated-data/products" "products" 3 c.fmt
            c.numProducts c.productBatchSize, wfail p.1 = false)
        ∧ wfail ("generated-data/sales-reps/sales_reps" ++ fileExt c.fmt) = false
        ∧ (∀ p ∈ entityFiles "generated-data/transactions" "transactions" 3 c.fmt
            c.numTransactions c.transactionBatchSize, wfail p.1 = false)) := by
  unfold secondPass
  simp only [andThen_ok_iff]
  rw [entityPipeline_ok_iff _ _ _ _ _ _ _ h1, entityPipeline_ok_iff _ _ _ _ _ _ _ h2,
    legacySalesRepPipeline_ok_iff, entityPipeline_ok_iff _ _ _ _ _ _ _ h3]

theorem allFiles_ok_iff (wfail : String → Bool) (c : Config)
    (h1 : c.customerBatchSize ≠ 0) (h2 : c.productBatchSize ≠ 0)
    (h3 : c.transactionBatchSize ≠ 0) :
    (∀ f ∈ allFiles c, wfail f.1 = false) ↔
      ((firstPass wfail c).2 = POut.ok ∧ (secondPass wfail c).2 = POut.ok) := by
  rw [firstPass_ok_iff wfail c h1 h2 h3, secondPass_ok_iff wfail c h1 h2 h3]
  simp only [allFiles, List.forall_mem_append, List.forall_mem_singleton]
  tauto

theorem main_zero_iff (wfail : String → Bool) (c : Config)
    (h1 : c.customerBatchSize ≠ 0) (h2 : c.productBatchSize ≠ 0)
    (h3 : c.transactionBatchSize ≠ 0) :
    (completeGeneratorMain wfail c).2 = 0 ↔ ∀ f ∈ allFiles c, wfail f.1 = false := by
  rw [allFiles_ok_iff wfail c h1 h2 h3]
  unfold completeGeneratorMain
  rcases hfp : firstPass wfail c with ⟨es1, o1⟩
  rcases hsp : secondPass wfail c with ⟨es2, o2⟩
  cases o1 <;> cases o2 <;> simp [runTry]

/-- If the process exits nonzero, the run emitted a stack trace on the error
stream and the diagnostic line on standard output. -/
theorem main_nonzero_diagnostics (wfail : String → Bool) (c : Config)
    (h : (completeGeneratorMain wfail c).2 ≠ 0) :
    Ev.err "Traceback (most recent call last)" ∈ (completeGeneratorMain wfail c).1
      ∧ ∃ m, Ev.out ("ERROR: " ++ m) ∈ (completeGeneratorMain wfail c).1 := by
  revert h
  unfold completeGeneratorMain
  rcases hfp : firstPass wfail c with ⟨es1, o1⟩
  rcases hsp : secondPass wfail c with ⟨es2, o2⟩
  cases o1 with
  | ok =>
      cases o2 with
      | ok => intro h; simp [runTry] at h
      | exc m =>
          intro h
          simp only [runTry]
          refine ⟨by simp, m, by simp⟩
  | exc m =>
      intro h
      simp only [runTry]
      refine ⟨by simp, m, by simp⟩

/-- The exit code is always 0 or 1. -/
theorem main_code_cases (wfail : String → Bool) (c : Config) :
    (completeGeneratorMain wfail c).2 = 0 ∨ (completeGeneratorMain wfail c).2 = 1 := by
  unfold completeGeneratorMain
  rcases hfp : firstPass wfail c with ⟨es1, o1⟩
  cases o1 with
  | ok =>
      simp only [runTry]
      rcases hsp : secondPass wfail c with ⟨es2, o2⟩
      cases o2 <;> simp [runTry]
  | exc m => simp [runTry]

theorem mem_main_writes (c : Config)
    (h1 : c.customerBatchSize ≠ 0) (h2 : c.productBatchSize ≠ 0)
    (h3 : c.transactionBatchSize ≠ 0) {f : String × Nat} (hf : f ∈ allFiles c) :
    Ev.write f.1 f.2 ∈ (completeGeneratorMain (fun _ => false) c).1 := by
  have hok := (allFiles_ok_iff (fun _ => false) c h1 h2 h3).mp (by simp)
  have hmemFP : ∀ g ∈ (allFiles c).take 0, True := fun _ _ => trivial
  unfold completeGeneratorMain
  rcases hfp : firstPass (fun _ => false) c with ⟨es1, o1⟩
  have ho1 : o1 = POut.ok := by
    have := hok.1
    rw [hfp] at this
    exact this
  subst ho1
  simp only [runTry]
  simp only [allFiles, List.mem_append] at hf
  have hwrite : ∀ (dir stem : String) (w : Nat) (N B : Nat), B ≠ 0 →
      f ∈ entityFiles dir stem w c.fmt N B →
      Ev.write f.1 f.2 ∈ (entityPipeline (fun _ => false) dir stem w c.fmt N B).1 :=
    fun dir stem w N B hB hmem =>
      mem_entityPipeline hB (fun _ _ => rfl) hmem
  have hes : es1 = (firstPass (fun _ => false) c).1 := by rw [hfp]
  rcases hf with ((((((hf | hf) | hf) | hf) | hf) | hf) | hf) | hf
  · -- first pass, customers
    apply List.mem_append_left
    rw [hes]
    exact mem_andThen_left (hwrite _ _ _ _ _ h1 hf)
  · apply List.mem_append_left
    rw [hes]
    refine mem_andThen_right ((entityPipeline_ok_iff _ _ _ _ _ _ _ h1).mpr
      fun _ _ => rfl) ?_
    exact mem_andThen_left (hwrite _ _ _ _ _ h2 hf)
  · apply List.mem_append_left
    rw [hes]
    refine mem_andThen_right ((entityPipeline_ok_iff _ _ _ _ _ _ _ h1).mpr
      fun _ _ => rfl) ?_
    refine mem_andThen_right ((entityPipeline_ok_iff _ _ _ _ _ _ _ h2).mpr
      fun _ _ => rfl) ?_
    exact mem_andThen_left (hwrite _ _ _ _ _ h2 hf)
  · apply List.mem_append_left
    rw [hes]
    refine mem_andThen_right ((entityPipeline_ok_iff _ _ _ _ _ _ _ h1).mpr
      fun _ _ => rfl) ?_
    refine mem_andThen_right ((entityPipeline_ok_iff _ _ _ _ _ _ _ h2).mpr
      fun _ _ => rfl) ?_
    exact mem_andThen_right ((entityPipeline_ok_iff _ _ _ _ _ _ _ h2).mpr
      fun _ _ => rfl) (hwrite _ _ _ _ _ h3 hf)
  · -- second pass, customers
    apply List.mem_append_right
    apply mem_runTry
    exact mem_andThen_left (hwrite _ _ _ _ _ h1 hf)
  · apply List.mem_append_right
    apply mem_runTry
    refine mem_andThen_right ((entityPipeline_ok_iff _ _ _ _ _ _ _ h1).mpr
      fun _ _ => rfl) ?_
    exact mem_andThen_left (hwrite _ _ _ _ _ h2 hf)
  · -- second pass, single legacy sales-rep file
    apply List.mem_append_right
    apply mem_runTry
    refine mem_andThen_right ((entityPipeline_ok_iff _ _ _ _ _ _ _ h1).mpr
      fun _ _ => rfl) ?_
    refine mem_andThen_right ((entityPipeline_ok_iff _ _ _ _ _ _ _ h2).mpr
      fun _ _ => rfl) ?_
    apply mem_andThen_left
    rcases List.mem_singleton.mp hf with rfl
    simp [legacySalesRepPipeline]
  · apply List.mem_append_right
    apply mem_runTry
    refine mem_andThen_right ((entityPipeline_ok_iff _ _ _ _ _ _ _ h1).mpr
      fun _ _ => rfl) ?_
    refine mem_andThen_right ((entityPipeline_ok_iff _ _ _ _ _ _ _ h2).mpr
      fun _ _ => rfl) ?_
    exact mem_andThen_right ((legacySalesRepPipeline_ok_iff _ _ _).mpr rfl)
      (hwrite _ _ _ _ _ h3 hf)

/-! ### String-shape helpers -/

/-- Two zero-padded renderings of the same number with different widths
differ whenever the digit count stays at or below the smaller width bound. -/
theorem pyFormat_ne_width {w₁ w₂ n k : Nat} (h1 : k < w₁) (h2 : w₂ ≤ k)
    (hn : (pyDigits n).length ≤ k) : pyFormat w₁ n ≠ pyFormat w₂ n := by
  intro h
  have hlen := congrArg String.length h
  rw [pyFormat_length, pyFormat_length] at hlen
  omega

theorem append_ne_of_length {a b : String} (pre : String) (h : a.length ≠ b.length) :
    pre ++ a ≠ pre ++ b := by
  intro he
  have hl := congrArg String.length he
  simp only [String.length_append] at hl
  omega

theorem append_ne_of_length_mid {a b : String} (pre suf : String)
    (h : a.length ≠ b.length) : pre ++ a ++ suf ≠ pre ++ b ++ suf := by
  intro he
  have hl := congrArg String.length he
  simp only [String.length_append] at hl
  omega

theorem pyFormat_length_ne {w₁ w₂ n k : Nat} (h1 : k < w₁) (h2 : w₂ ≤ k)
    (hn : (pyDigits n).length ≤ k) :
    (pyFormat w₁ n).length ≠ (pyFormat w₂ n).length := by
  rw [pyFormat_length, pyFormat_length]
  omega

/-! ### Field erasures for the determinism law

`stable` drops only the `created_at` wall-clock timestamp; `seedOnly`
additionally drops the date field whose range is anchored at the run's
current date (`fake.date_between(end_date = today)`). -/

def Customer.stable (c : Customer) : Customer := { c with created_at := 0 }

def Customer.seedOnly (c : Customer) : Customer :=
  { c with created_at := 0, acquisition_date := RVal.dateBetween 0 0 0 }

def Product.stable (pr : Product) : Product := { pr with created_at := 0 }

def SalesRep.stable (r : SalesRep) : SalesRep := { r with created_at := 0 }

def SalesRep.seedOnly (r : SalesRep) : SalesRep :=
  { r with created_at := 0, hire_date := RVal.dateBetween 0 0 0 }

def Transaction.stable (t : Transaction) : Transaction := { t with created_at := 0 }

/-! ### The claims -/

/-- **C1**: for every total record count `N > 0` and batch size `B > 0`, the
batch loop produces exactly `ceil(N/B)` ordered, contiguous, non-overlapping
ranges `[start, start+len)` whose union is exactly `[0, N)`: the number of
ranges is `(N+B-1)/B`, which is the least `M` with `N ≤ M*B` (the ceiling);
range `k` starts at `k*B`; every range except possibly the last has length
`B` and the last has length `N - (numBatches-1)*B`; concatenating the ranges
in order yields the interval `[0, N)` exactly; `N < B` yields the single
batch `[0, N)`; and `N` divisible by `B` yields exactly `N/B` batches, so no
empty trailing batch. -/
theorem claim_C1 (N B : Nat) (hN : 0 < N) (hB : 0 < B) :
    (batchRanges N B).length = numBatches N B
    ∧ N ≤ numBatches N B * B
    ∧ (numBatches N B - 1) * B < N
    ∧ (∀ k, k < numBatches N B →
        (batchRanges N B)[k]? = some (k * B, min B (N - k * B)))
    ∧ (∀ k, k + 1 < numBatches N B → min B (N - k * B) = B)
    ∧ min B (N - (numBatches N B - 1) * B) = N - (numBatches N B - 1) * B
    ∧ ((batchRanges N B).map fun r => List.range' r.1 r.2).flatten = List.range N
    ∧ (N < B → batchRanges N B = [(0, N)])
    ∧ (N % B = 0 → numBatches N B = N / B) :=
  ⟨batchRanges_length N B, numBatches_mul_ge hN hB, numBatches_pred_mul_lt hN hB,
    fun _ hk => batchRanges_get hk, fun _ hk => chunk_len_of_not_last hN hB hk,
    chunk_len_last hN hB, chunk_cover hN hB, fun h => batchRanges_single hN h,
    fun h => numBatches_dvd hB h⟩

theorem claim_C1_witness :
    0 < 5 ∧ 0 < 2 ∧
      ((batchRanges 5 2).map fun r => List.range' r.1 r.2).flatten = List.range 5 :=
  ⟨by decide, by decide, (claim_C1 5 2 (by decide) (by decide)).2.2.2.2.2.2.1⟩

/-- **C4**: with `NUM_CUSTOMERS = 5` and `CUSTOMER_BATCH_SIZE = 2` the
customer pipeline produces exactly the 3 batches `[0,2), [2,4), [4,5)` and
(`quick_gen.py`, identically the legacy pass of `complete_generator.py`)
writes exactly the 3 files `customers_batch_000.*`, `customers_batch_001.*`,
`customers_batch_002.*` with 2, 2 and 1 records, for either output format. -/
theorem claim_C4 :
    batchRanges 5 2 = [(0, 2), (2, 2), (4, 1)]
    ∧ ((batchRanges 5 2).map fun r => (r.1, r.1 + r.2)) = [(0, 2), (2, 4), (4, 5)]
    ∧ quickGenCustomerFiles 5 2 "parquet" =
        [("generated-data/customers/customers_batch_000.parquet", 2),
         ("generated-data/customers/customers_batch_001.parquet", 2),
         ("generated-data/customers/customers_batch_002.parquet", 1)]
    ∧ quickGenCustomerFiles 5 2 "csv" =
        [("generated-data/customers/customers_batch_000.csv", 2),
         ("generated-data/customers/customers_batch_001.csv", 2),
         ("generated-data/customers/customers_batch_002.csv", 1)] := by
  refine ⟨by decide, by decide, by decide, by decide⟩

/-- Stream whose draw at the legacy sales-rep reference position (`p+3` with
`p = 0`) makes `randint(1, NUM_SALES_REPS)` return `NUM_SALES_REPS`. -/
def sigmaTop : Nat → Nat := fun i => if i = 3 then NUM_SALES_REPS - 1 else 0

/-- **C2**, counterexample: in the legacy transaction pass (a
transaction-generation pass the program executes), the sales-rep reference
is drawn by `randint(1, NUM_SALES_REPS)`, so a valid draw yields the numeric
id `NUM_SALES_REPS = 20000`, which is not in `[0, NUM_SALES_REPS)`. -/
theorem claim_C2_counterexample :
    (Legacy.mkTransaction sigmaTop 0 0 10 NUM_CUSTOMERS NUM_PRODUCTS
        NUM_SALES_REPS 0 0).sales_rep_id = "SREP" ++ pyFormat 4 NUM_SALES_REPS
    ∧ ¬ NUM_SALES_REPS < NUM_SALES_REPS := by
  refine ⟨by decide, by decide⟩

/-- **C2**, amended: in the first transaction pass all three reference fields
encode a numeric id in `[0, configured_count)`; in the legacy pass the
customer and product references do as well, but the sales-rep reference is
`randint(1, NUM_SALES_REPS)` — it encodes a 1-based id in
`[1, NUM_SALES_REPS]`, not an id of `[0, NUM_SALES_REPS)`. -/
theorem claim_C2 (σ : Nat → Nat) (p se nd nc np ns now tid : Nat)
    (hnc : 0 < nc) (hnp : 0 < np) (hns : 0 < ns) :
    ((mkTransaction σ p se nd nc np ns now tid).customer_id
        = "CUST" ++ pyFormat 8 (randintV 0 (nc - 1) (σ (p + 1)))
      ∧ randintV 0 (nc - 1) (σ (p + 1)) < nc)
    ∧ ((mkTransaction σ p se nd nc np ns now tid).product_id
        = "PROD" ++ pyFormat 8 (randintV 0 (np - 1) (σ (p + 2)))
      ∧ randintV 0 (np - 1) (σ (p + 2)) < np)
    ∧ ((mkTransaction σ p se nd nc np ns now tid).sales_rep_id
        = "SREP" ++ pyFormat 8 (randintV 0 (ns - 1) (σ (p + 3)))
      ∧ randintV 0 (ns - 1) (σ (p + 3)) < ns)
    ∧ randintV 0 (nc - 1) (σ (p + 1)) < nc
    ∧ randintV 0 (np - 1) (σ (p + 2)) < np
    ∧ ((Legacy.mkTransaction σ p se nd nc np ns now tid).sales_rep_id
        = "SREP" ++ pyFormat 4 (randintV 1 ns (σ (p + 3)))
      ∧ 1 ≤ randintV 1 ns (σ (p + 3))
      ∧ randintV 1 ns (σ (p + 3)) ≤ ns) :=
  ⟨⟨rfl, randintV_lt hnc _⟩, ⟨rfl, randintV_lt hnp _⟩, ⟨rfl, randintV_lt hns _⟩,
    randintV_lt hnc _, randintV_lt hnp _,
    ⟨rfl, randintV_lower _ _ _, randintV_upper 1 ns hns _⟩⟩

theorem claim_C2_witness :
    0 < 5 ∧ randintV 0 (5 - 1) ((fun _ => (7 : Nat)) (0 + 1)) < 5 :=
  ⟨by decide, (claim_C2 (fun _ => 7) 0 0 10 5 5 5 0 0 (by decide) (by decide)
    (by decide)).1.2⟩

/-- **C5**, counterexample: two runs with identical configuration and the
same seeded stream, started on different calendar days, differ in the
customer `acquisition_date` — a field the data model lists as an acquisition
date, not a wall-clock creation timestamp — because
`fake.date_between(start_date=-5y, end_date=today)` is anchored at the
current date. -/
theorem claim_C5_counterexample :
    (generate_customer_batch (fun _ => 0) 0 1000 500 0 1).map Customer.stable
      ≠ (generate_customer_batch (fun _ => 0) 0 2000 700 0 1).map Customer.stable := by
  decide

/-- **C5**, amended: for every entity type the generated record sequence is a
deterministic function of the configuration, the seeded random stream, and
the run's current calendar date: two runs with the same stream and the same
current date agree field-for-field except `created_at`; and even across
different current dates every field other than `created_at` and the
date-anchored `acquisition_date` / `hire_date` agrees. -/
theorem claim_C5 (σ : Nat → Nat) (p today today₂ now now₂ start_id bs : Nat)
    (se nd nc np ns : Nat) :
    (generate_customer_batch σ p today now start_id bs).map Customer.stable
      = (generate_customer_batch σ p today now₂ start_id bs).map Customer.stable
    ∧ (generate_product_batch σ p now start_id bs).map Product.stable
      = (generate_product_batch σ p now₂ start_id bs).map Product.stable
    ∧ (generate_sales_rep_batch σ p today now start_id bs).map SalesRep.stable
      = (generate_sales_rep_batch σ p today now₂ start_id bs).map SalesRep.stable
    ∧ (generate_transaction_batch σ p se nd nc np ns now start_id bs).map
        Transaction.stable
      = (generate_transaction_batch σ p se nd nc np ns now₂ start_id bs).map
        Transaction.stable
    ∧ (generate_customer_batch σ p today now start_id bs).map Customer.seedOnly
      = (generate_customer_batch σ p today₂ now₂ start_id bs).map Customer.seedOnly
    ∧ (generate_sales_rep_batch σ p today now start_id bs).map SalesRep.seedOnly
      = (generate_sales_rep_batch σ p today₂ now₂ start_id bs).map SalesRep.seedOnly := by
  refine ⟨?_, ?_, ?_, ?_, ?_, ?_⟩ <;>
    (simp only [generate_customer_batch, generate_product_batch,
      generate_sales_rep_batch, generate_transaction_batch]
     rw [List.map_map, List.map_map]
     rfl)

/-- **C6**: within one run and entity type, every generated identifier is the
fixed prefix plus the zero-padded sequence id — a function of the record's
position only, independent of the random stream and of the wall clock — and
identifiers at distinct positions are pairwise distinct.  This holds in both
passes, including the legacy 1-based `SREP{i+1:04d}` sales-rep ids. -/
theorem claim_C6 (σ τ : Nat → Nat) (p q today today₂ now now₂ se nd nc np ns : Nat)
    (i j : Nat) (hij : i ≠ j) :
    ((mkCustomer σ p today now i).customer_id = "CUST" ++ pyFormat 8 i
      ∧ (mkCustomer σ p today now i).customer_id
          = (mkCustomer τ q today₂ now₂ i).customer_id)
    ∧ (mkProduct σ p now i).product_id = "PROD" ++ pyFormat 8 i
    ∧ (mkSalesRep σ p today now i).sales_rep_id = "SREP" ++ pyFormat 8 i
    ∧ (mkTransaction σ p se nd nc np ns now i).transaction_id
        = "TXN" ++ pyFormat 12 i
    ∧ (Legacy.mkCustomer σ p today now i).customer_id = "CUST" ++ pyFormat 6 i
    ∧ (Legacy.mkSalesRep σ p today now i).sales_rep_id
        = "SREP" ++ pyFormat 4 (i + 1)
    ∧ (mkCustomer σ p today now i).customer_id
        ≠ (mkCustomer τ q today₂ now₂ j).customer_id
    ∧ (mkProduct σ p now i).product_id ≠ (mkProduct τ q now₂ j).product_id
    ∧ (mkSalesRep σ p today now i).sales_rep_id
        ≠ (mkSalesRep τ q today₂ now₂ j).sales_rep_id
    ∧ (mkTransaction σ p se nd nc np ns now i).transaction_id
        ≠ (mkTransaction τ q se nd nc np ns now₂ j).transaction_id
    ∧ (Legacy.mkCustomer σ p today now i).customer_id
        ≠ (Legacy.mkCustomer τ q today₂ now₂ j).customer_id
    ∧ (Legacy.mkSalesRep σ p today now i).sales_rep_id
        ≠ (Legacy.mkSalesRep τ q today₂ now₂ j).sales_rep_id :=
  ⟨⟨rfl, rfl⟩, rfl, rfl, rfl, rfl, rfl,
    fun h => hij (stem_format_inj _ _ h),
    fun h => hij (stem_format_inj _ _ h),
    fun h => hij (stem_format_inj _ _ h),
    fun h => hij (stem_format_inj _ _ h),
    fun h => hij (stem_format_inj _ _ h),
    fun h => hij (by have := stem_format_inj "SREP" 4 h; omega)⟩

theorem claim_C6_witness :
    (0 : Nat) ≠ 1
      ∧ (mkCustomer (fun _ => 0) 0 0 0 0).customer_id
          ≠ (mkCustomer (fun _ => 0) 0 0 0 1).customer_id :=
  ⟨by decide,
    (claim_C6 (fun _ => 0) (fun _ => 0) 0 0 0 0 0 0 0 0 0 0 0 0 1
      (by decide)).2.2.2.2.2.2.1⟩

/-- **C8**: in every generated transaction the monetary fields are
independently sampled: `total_amount` is exactly the value of its own
`uniform(50, 50000)` draw at stream position `p+8`, so it agrees between any
two streams that agree at that position; and two streams that differ only at
that position leave `quantity`, `unit_price`, `discount_percent`,
`tax_amount` (and the reference fields) unchanged while changing
`total_amount` — hence `total_amount` is not
`quantity * unit_price * (1 - discount) + tax`, nor any other function of
those fields. -/
theorem claim_C8 (σ₁ σ₂ : Nat → Nat) (p se nd nc np ns now tid : Nat)
    (h : σ₁ (p + 8) = σ₂ (p + 8)) :
    ((mkTransaction σ₁ p se nd nc np ns now tid).total_amount
        = RVal.uniform 5000 5000000 2 (σ₁ (p + 8))
      ∧ (mkTransaction σ₁ p se nd nc np ns now tid).total_amount
          = (mkTransaction σ₂ p se nd nc np ns now tid).total_amount)
    ∧ (let t₁ := mkTransaction (fun _ => 0) 0 0 1 1 1 1 0 0
       let t₂ := mkTransaction (fun i => if i = 8 then 1 else 0) 0 0 1 1 1 1 0 0
       t₁.quantity = t₂.quantity ∧ t₁.unit_price = t₂.unit_price
         ∧ t₁.discount_percent = t₂.discount_percent
         ∧ t₁.tax_amount = t₂.tax_amount
         ∧ t₁.customer_id = t₂.customer_id ∧ t₁.product_id = t₂.product_id
         ∧ t₁.sales_rep_id = t₂.sales_rep_id
         ∧ t₁.total_amount ≠ t₂.total_amount) :=
  ⟨⟨rfl, by show RVal.uniform 5000 5000000 2 (σ₁ (p + 8))
              = RVal.uniform 5000 5000000 2 (σ₂ (p + 8))
            rw [h]⟩,
    by refine ⟨by decide, by decide, by decide, by decide, by decide, by decide,
      by decide, by decide⟩⟩

theorem claim_C8_witness :
    ((fun _ : Nat => (0 : Nat)) (0 + 8) = (fun _ : Nat => (0 : Nat)) (0 + 8))
      ∧ (mkTransaction (fun _ => 0) 0 0 1 1 1 1 0 0).total_amount
          = RVal.uniform 5000 5000000 2 0 :=
  ⟨rfl, (claim_C8 (fun _ => 0) (fun _ => 0) 0 0 1 1 1 1 0 0 rfl).1.1⟩

/-- A configuration whose record counts are all the invalid value 0 while the
batch sizes stay positive. -/
def cfgZero : Config := ⟨0, 0, 0, 0, 2, 2, 2, "parquet"⟩

/-- **C3**: the generators perform no configuration validation, and
`os.makedirs` runs before anything else, so an invalid configuration does
not fail before output is created under `generated-data/`.  Evaluated at the
failing inputs: with record count 0 the customer pipeline creates its output
directory and completes normally; with batch size 0 it creates the directory
and only then raises `ZeroDivisionError` at `num_batches = (N + B - 1) // B`;
and a whole-module run with every count 0 creates the directories, even
writes the (empty) legacy sales-rep file, and exits 0. -/
theorem claim_C3 :
    entityPipeline (fun _ => false) "generated-data/customers" "customers" 5
        "parquet" 0 200000
      = ([Ev.mkdir "generated-data/customers"], POut.ok)
    ∧ entityPipeline (fun _ => false) "generated-data/customers" "customers" 5
        "parquet" 5 0
      = ([Ev.mkdir "generated-data/customers"], POut.exc "ZeroDivisionError")
    ∧ (completeGeneratorMain (fun _ => false) cfgZero).2 = 0
    ∧ Ev.mkdir "generated-data/customers"
        ∈ (completeGeneratorMain (fun _ => false) cfgZero).1
    ∧ Ev.write "generated-data/sales-reps/sales_reps.parquet" 0
        ∈ (completeGeneratorMain (fun _ => false) cfgZero).1 := by
  refine ⟨by decide, by decide, by decide, by decide, by decide⟩

/-- A small configuration on which whole runs can be evaluated: 5 customers
and 5 products in batches of 2, 3 sales reps, 4 transactions in batches
of 2. -/
def cfgSmall : Config := ⟨5, 5, 3, 4, 2, 2, 2, "parquet"⟩

/-- Failure oracle that makes exactly the write of the second product batch
of the first pass raise. -/
def wfailProducts2 : String → Bool :=
  fun s => s == "generated-data/products/products_batch_00001.parquet"

/-- `true` exactly on events of the error stream. -/
def isErrEv : Ev → Bool
  | Ev.err _ => true
  | _ => false

/-- **C7**, counterexample: in a run whose second product-batch write fails,
the process exits 1 and the stack trace is on the error stream, but the
diagnostic message (`print` of the `✗ ERROR:` line) goes to standard output:
the only error-stream line of the run is the traceback, so the claim that
the diagnostic message is written to the error stream is false. -/
theorem claim_C7_counterexample :
    (completeGeneratorMain wfailProducts2 cfgSmall).2 = 1
    ∧ Ev.out "ERROR: write failure" ∈ (completeGeneratorMain wfailProducts2 cfgSmall).1
    ∧ (completeGeneratorMain wfailProducts2 cfgSmall).1.filter isErrEv
        = [Ev.err "Traceback (most recent call last)"] := by
  refine ⟨by decide, by decide, by decide⟩

/-- **C7**, amended: the process exits 0 exactly when every write of all four
entity pipelines (in both passes) succeeds, and otherwise exits 1 after
writing the stack trace to the error stream and the diagnostic message to
standard output; a write failure in the second product batch exits 1 and no
subsequent entity pipeline (sales reps, transactions) executes — their
output directories are never even created. -/
theorem claim_C7 (wfail : String → Bool) (c : Config)
    (h1 : c.customerBatchSize ≠ 0) (h2 : c.productBatchSize ≠ 0)
    (h3 : c.transactionBatchSize ≠ 0) :
    ((completeGeneratorMain wfail c).2 = 0 ↔ ∀ f ∈ allFiles c, wfail f.1 = false)
    ∧ ((completeGeneratorMain wfail c).2 = 0 ∨ (completeGeneratorMain wfail c).2 = 1)
    ∧ ((completeGeneratorMain wfail c).2 ≠ 0 →
        Ev.err "Traceback (most recent call last)" ∈ (completeGeneratorMain wfail c).1
          ∧ ∃ m, Ev.out ("ERROR: " ++ m) ∈ (completeGeneratorMain wfail c).1)
    ∧ ((completeGeneratorMain wfailProducts2 cfgSmall).2 = 1
      ∧ Ev.mkdir "generated-data/sales-reps"
          ∉ (completeGeneratorMain wfailProducts2 cfgSmall).1
      ∧ Ev.mkdir "generated-data/transactions"
          ∉ (completeGeneratorMain wfailProducts2 cfgSmall).1
      ∧ Ev.err "Traceback (most recent call last)"
          ∈ (completeGeneratorMain wfailProducts2 cfgSmall).1) :=
  ⟨main_zero_iff wfail c h1 h2 h3, main_code_cases wfail c,
    fun h => main_nonzero_diagnostics wfail c h,
    by refine ⟨by decide, by decide, by decide, by decide⟩⟩

theorem claim_C7_witness :
    (completeGeneratorMain (fun _ => false) cfgSmall).2 = 0
      ∨ (completeGeneratorMain (fun _ => false) cfgSmall).2 = 1 :=
  (claim_C7 (fun _ => false) cfgSmall (by decide) (by decide) (by decide)).2.1

/-- **C9**: one execution of `complete_generator.py` runs the whole
four-entity pipeline twice — the first pass with 5-digit batch-index padding
and 8-digit entity ids, then the redefined legacy pass with 3-digit padding,
6-digit ids and smaller value ranges.  The two passes are not equivalent:
at every batch index arising here (indeed at every index below 10000) they
write different file names, and a fully successful run exits 0 with both
passes' complete file sets written. -/
theorem claim_C9 (c : Config) (h1 : c.customerBatchSize ≠ 0)
    (h2 : c.productBatchSize ≠ 0) (h3 : c.transactionBatchSize ≠ 0) :
    (completeGeneratorMain (fun _ => false) c).2 = 0
    ∧ (∀ f ∈ allFiles c, Ev.write f.1 f.2 ∈ (completeGeneratorMain (fun _ => false) c).1)
    ∧ (∀ dir stem : String, ∀ b : Nat, b < 10000 →
        dir ++ "/" ++ stem ++ "_batch_" ++ pyFormat 5 b ++ fileExt c.fmt
          ≠ dir ++ "/" ++ stem ++ "_batch_" ++ pyFormat 3 b ++ fileExt c.fmt)
    ∧ (∀ b : Nat,
        "generated-data/sales-reps" ++ "/" ++ "sales_reps" ++ "_batch_"
            ++ pyFormat 5 b ++ fileExt c.fmt
          ≠ "generated-data/sales-reps/sales_reps" ++ fileExt c.fmt)
    ∧ numBatches NUM_CUSTOMERS CUSTOMER_BATCH_SIZE = 10
    ∧ numBatches NUM_PRODUCTS PRODUCT_BATCH_SIZE = 4
    ∧ numBatches NUM_SALES_REPS PRODUCT_BATCH_SIZE = 1
    ∧ numBatches NUM_TRANSACTIONS TRANSACTION_BATCH_SIZE = 85
    ∧ (∀ σ : Nat → Nat, ∀ p today now i : Nat, i < 10000000 →
        (mkCustomer σ p today now i).customer_id
          ≠ (Legacy.mkCustomer σ p today now i).customer_id)
    ∧ (∀ σ : Nat → Nat, ∀ p today now i : Nat,
        (mkCustomer σ p today now i).lifetime_value
            = RVal.uniform 10000 50000000 2 (σ (p + 10))
          ∧ (Legacy.mkCustomer σ p today now i).lifetime_value
            = RVal.uniform 10000 5000000 2 (σ (p + 10))) := by
  refine ⟨(main_zero_iff (fun _ => false) c h1 h2 h3).mpr fun _ _ => rfl,
    fun f hf => mem_main_writes c h1 h2 h3 hf, ?_, ?_,
    by decide, by decide, by decide, by decide, ?_, fun σ p today now i => ⟨rfl, rfl⟩⟩
  · intro dir stem b hb
    have hb4 : b < 10 ^ 4 := by
      have h10 : (10 : ℕ) ^ 4 = 10000 := by norm_num
      omega
    exact append_ne_of_length_mid _ _
      (pyFormat_length_ne (by norm_num) (by norm_num)
        (pyDigits_length_le (by norm_num) hb4))
  · intro b he
    have hl := congrArg String.length he
    simp only [String.length_append] at hl
    rw [pyFormat_length] at hl
    have e1 : ("generated-data/sales-reps").length = 25 := rfl
    have e2 : ("/").length = 1 := rfl
    have e3 : ("sales_reps").length = 10 := rfl
    have e4 : ("_batch_").length = 7 := rfl
    have e5 : ("generated-data/sales-reps/sales_reps").length = 36 := rfl
    omega
  · intro σ p today now i hi
    have hi7 : i < 10 ^ 7 := by
      have h10 : (10 : ℕ) ^ 7 = 10000000 := by norm_num
      omega
    exact append_ne_of_length _
      (pyFormat_length_ne (by norm_num) (by norm_num)
        (pyDigits_length_le (by norm_num) hi7))

theorem claim_C9_witness :
    (completeGeneratorMain (fun _ => false) cfgSmall).2 = 0 :=
  (claim_C9 cfgSmall (by decide) (by decide) (by decide)).1

/-- **C10**: the legacy pass writes all sales reps as one unbatched file
`sales_reps.parquet` (or `sales_reps.csv`), whose identifiers are exactly
the 1-based `SREP0001 .. SREP{NUM_SALES_REPS:04d}`; the legacy transaction
pass draws its reference as `randint(1, NUM_SALES_REPS)`, so every legacy
transaction's `sales_rep_id` string is a member of the legacy pass's
generated sales-rep identifier set. -/
theorem claim_C10 (fmt : String) (σ : Nat → Nat)
    (p se nd nc np ns now today tid : Nat) (hns : 0 < ns) :
    legacySalesRepPipeline (fun _ => false) fmt ns
      = ([Ev.mkdir "generated-data/sales-reps",
          Ev.write ("generated-data/sales-reps/sales_reps" ++ fileExt fmt) ns],
         POut.ok)
    ∧ fileExt "parquet" = ".parquet"
    ∧ (fmt ≠ "parquet" → fileExt fmt = ".csv")
    ∧ (Legacy.generate_sales_reps_records σ p today now ns).map
        (fun r => r.sales_rep_id) = Legacy.salesRepIds ns
    ∧ (Legacy.mkTransaction σ p se nd nc np ns now tid).sales_rep_id
        ∈ Legacy.salesRepIds ns := by
  refine ⟨rfl, rfl, ?_, ?_, ?_⟩
  · intro h
    simp [fileExt, h]
  · unfold Legacy.generate_sales_reps_records Legacy.salesRepIds
    rw [List.map_map]
    rfl
  · show "SREP" ++ pyFormat 4 (randintV 1 ns (σ (p + 3))) ∈ Legacy.salesRepIds ns
    have hlo := randintV_lower 1 ns (σ (p + 3))
    have hhi := randintV_upper 1 ns hns (σ (p + 3))
    unfold Legacy.salesRepIds
    refine List.mem_map.mpr ⟨randintV 1 ns (σ (p + 3)) - 1,
      List.mem_range.mpr (by omega), ?_⟩
    have hv : randintV 1 ns (σ (p + 3)) - 1 + 1 = randintV 1 ns (σ (p + 3)) := by omega
    rw [hv]

theorem claim_C10_witness :
    0 < 3 ∧ (Legacy.mkTransaction (fun _ => 0) 0 0 1 1 1 3 0 0).sales_rep_id
      ∈ Legacy.salesRepIds 3 :=
  ⟨by decide,
    (claim_C10 "parquet" (fun _ => 0) 0 0 1 1 1 3 0 0 0 (by decide)).2.2.2.2⟩

end ETL

